import Mathlib

/-!
Shallow embedding of `src/brian2/parsing/expressions.py`: AST-based analysis
of expressions.  The module defines three recursive tree walks over the same
expression grammar:

* `is_boolean_expression` — boolean-type checking,
* `_get_value_from_expression` — constant evaluation (used for exponents),
* `parse_expression_dimensions` — physical-dimension checking.

Python exceptions are modelled by an explicit error type `Err` and the
`Except Err` monad; each `Err` constructor corresponds to one `raise` site of
the source and carries the data the source interpolates into the exception
message.  Numeric values are modelled as rationals.  The AST mirrors the
Python `ast` node kinds the source dispatches on; operator kinds are carried
as their Python class names (the source compares `expr.op.__class__.__name__`
against string literals).
-/

/-- Physical dimension: a vector of rational exponents over the seven SI base
quantities, the collaborator `Dimension` type of
`brian2.units.fundamentalunits` (order: m, kg, s, A, K, mol, cd).  Equality is
exact elementwise equality of exponents. -/
structure Dim where
  length : ℚ
  mass : ℚ
  time : ℚ
  current : ℚ
  temperature : ℚ
  amountOfSubstance : ℚ
  luminousIntensity : ℚ
deriving DecidableEq

/-- The zero dimension vector. -/
def DIMENSIONLESS : Dim := ⟨0, 0, 0, 0, 0, 0, 0⟩

/-- Dimension product (`left * right` on `Dimension`): exponents add
elementwise. -/
def Dim.mul (a b : Dim) : Dim :=
  ⟨a.length + b.length, a.mass + b.mass, a.time + b.time,
   a.current + b.current, a.temperature + b.temperature,
   a.amountOfSubstance + b.amountOfSubstance,
   a.luminousIntensity + b.luminousIntensity⟩

/-- Dimension quotient (`left / right` on `Dimension`): exponents subtract
elementwise. -/
def Dim.div (a b : Dim) : Dim :=
  ⟨a.length - b.length, a.mass - b.mass, a.time - b.time,
   a.current - b.current, a.temperature - b.temperature,
   a.amountOfSubstance - b.amountOfSubstance,
   a.luminousIntensity - b.luminousIntensity⟩

/-- Dimension power (`left ** n` on `Dimension`): every exponent is scaled by
the numeric power `n`. -/
def Dim.pow (a : Dim) (n : ℚ) : Dim :=
  ⟨a.length * n, a.mass * n, a.time * n, a.current * n, a.temperature * n,
   a.amountOfSubstance * n, a.luminousIntensity * n⟩

/-- Python modulo on the rational fragment: the result follows the sign of
the divisor, `a % b = a - b * floor(a / b)` (for `b = 0` Python raises
`ZeroDivisionError`; the rational model maps that case to `a`). -/
def pymod (a b : ℚ) : ℚ := a - b * (⌊a / b⌋ : ℚ)

/-- Python power on the rational fragment: exact for integer exponents
(`a ** n`).  A fractional exponent produces an irrational float in general
and falls outside the rational model; it is mapped to 0 here. -/
def pypow (a b : ℚ) : ℚ := if b.den = 1 then a ^ b.num else 0

/-- Expression-tree nodes, mirroring the Python `ast` node kinds the source
dispatches on (`ast.Num`, `ast.NameConstant` for the boolean literals,
`ast.Name`, `ast.BoolOp`, `ast.Compare`, `ast.Call`, `ast.BinOp`,
`ast.UnaryOp`).  Operator kinds are carried as their Python class names
(`"Add"`, `"Sub"`, `"Mult"`, `"Div"`, `"Pow"`, `"Mod"`, `"USub"`, `"Not"`,
...), exactly as the source compares `expr.op.__class__.__name__` against
string literals.  The particular comparison operators of a `Compare` node and
the and/or distinction of a `BoolOp` node are never consulted by the source
and are not recorded.  For a `Call` node the source reads `expr.func.id`
(callee name), the positional `args`, `len(expr.keywords)` and the presence
of starargs/kwargs. -/
inductive Expr where
  | num (n : ℚ)
  | nameConstant (value : Bool)
  | name (id : String)
  | boolOp (values : List Expr)
  | compare (left : Expr) (comparators : List Expr)
  | call (func : String) (args : List Expr) (numKeywords : Nat)
      (hasStarargs : Bool) (hasKwargs : Bool)
  | binOp (op : String) (left : Expr) (right : Expr)
  | unaryOp (op : String) (operand : Expr)

/-- A plain variable descriptor in the variable table: `dimensions`,
`is_boolean`, `constant`, `scalar` and the value returned by `get_value()`. -/
structure VarDescriptor where
  dimensions : Dim
  is_boolean : Bool
  constant : Bool
  scalar : Bool
  value : ℚ
deriving DecidableEq

/-- One entry of a function descriptor's `_arg_units` list: Python `None`
(any dimension accepted), Python `bool` (argument must be boolean-typed), or
a concrete required dimension (a `Unit`, compared through its dimensions). -/
inductive ArgUnit where
  | any
  | boolean
  | unit (d : Dim)
deriving DecidableEq

/-- A function descriptor's `_return_unit`: Python `bool` (boolean result,
dimensionless), a `Unit` or `int` (a fixed dimension; for an `int` the source
reads `getattr(_return_unit, 'dim', DIMENSIONLESS)`), or a callable rule
mapping the argument dimensions to the result dimension. -/
inductive ReturnUnit where
  | boolean
  | fixed (d : Dim)
  | computed (rule : List Dim → Dim)

/-- A function descriptor (an instance of `brian2.core.functions.Function`).
The `Option` wrappers model Python `hasattr` probes: `returns_bool` is
`_returns_bool` when present, `arg_units` is `_arg_units` when present,
`return_unit` is `_return_unit` when present. -/
structure FuncDescriptor where
  returns_bool : Option Bool
  arg_units : Option (List ArgUnit)
  return_unit : Option ReturnUnit

/-- An identifier resolves to either a plain variable descriptor or a
function descriptor (`isinstance(variables[name], Function)`). -/
inductive TableEntry where
  | var (v : VarDescriptor)
  | func (f : FuncDescriptor)

/-- The variable table: identifier names mapped to descriptors. -/
abbrev VarTable := List (String × TableEntry)

/-- Dictionary lookup `variables.get(name, None)` / `name in variables`
(the Python parameter `variables` is called `vars` throughout, since
`variables` is a reserved word in Lean). -/
def lookupTable (vars : VarTable) (name : String) : Option TableEntry :=
  (vars.find? (fun p => p.1 == name)).map (fun p => p.2)

/-- Errors raised by the three analyses.  Each constructor corresponds to one
`raise` site of the source and carries exactly the data the source
interpolates into the exception message:

* `valueError`, `syntaxError`, `keyError`: Python `ValueError`,
  `SyntaxError`, `KeyError` with a plain message;
* `attributeError`: a Python `AttributeError` from reading a missing
  descriptor attribute (e.g. `is_boolean` on a `Function`);
* `compareMismatch`: the `DimensionMismatchError` of the comparison-chain
  case, carrying the two rendered sub-expressions the source formats
  (`expr.left` and `expr.comparators[0]`) and the two differing dimensions;
* `binOpMismatch`: the `DimensionMismatchError` raised through
  `fail_for_dimension_mismatch` for `+`, `-`, `%`, carrying the rendered
  operands, the operator symbol and both dimensions;
* `argDimMismatch`: the `DimensionMismatchError` for a function argument of
  wrong dimension (1-based position, function name, rendered argument,
  actual and expected dimensions);
* `argBoolTypeError`: the `TypeError` for a function argument that should be
  boolean but is not (1-based position, function name, rendered argument). -/
inductive Err where
  | valueError (msg : String)
  | syntaxError (msg : String)
  | keyError (msg : String)
  | attributeError (attr : String)
  | compareMismatch (renderedLeft renderedFirstComparator : String)
      (dimLeft dimRight : Dim)
  | binOpMismatch (renderedLeft opSymbol renderedRight : String)
      (dimLeft dimRight : Dim)
  | argDimMismatch (argNum : Nat) (func : String) (renderedArg : String)
      (actual expected : Dim)
  | argBoolTypeError (argNum : Nat) (func : String) (renderedArg : String)
deriving DecidableEq

mutual

/-- Modelled from the spec: `NodeRenderer.render_node` lives in
`brian2.parsing.rendering`, a collaborator module not present under `src/`;
the spec describes it only as `render(node) -> text`, "used exclusively to
build diagnostic strings".  A minimal renderer producing source-like text for
each node. -/
def render_node : Expr → String
  | .num n => toString n
  | .nameConstant b => if b then "True" else "False"
  | .name s => s
  | .boolOp values => String.intercalate " and " (render_list values)
  | .compare left comparators =>
      String.intercalate " < " (render_node left :: render_list comparators)
  | .call f args _ _ _ =>
      f ++ "(" ++ String.intercalate ", " (render_list args) ++ ")"
  | .binOp op l r => render_node l ++ " " ++ op ++ " " ++ render_node r
  | .unaryOp op e => op ++ " " ++ render_node e

/-- Renders every node of a list (helper for `render_node`). -/
def render_list : List Expr → List String
  | [] => []
  | e :: es => render_node e :: render_list es

end

mutual

/-- Source function `is_boolean_expression(expr, variables)` (lines 20-95):
determines
whether an expression is of boolean type.

* `BoolOp`: `True` when all operands are boolean, else
  `SyntaxError("Expression ought to be boolean but is not ...")`;
* `NameConstant`: the value is `True` or `False`, so boolean;
* `Name`: the table entry's `is_boolean` when the name is in the table
  (a `Function` entry has no `is_boolean` attribute), else whether the name
  is the literal token `True` or `False`;
* `Call`: the table entry's `_returns_bool` when the callee is in the table
  and has that attribute, else `SyntaxError("Unknown function ...")`;
* `Compare`: always boolean;
* `UnaryOp`: boolean exactly when the operator is `Not` (the operand is not
  visited);
* anything else: not boolean. -/
def is_boolean_expression (vars : VarTable) : Expr → Except Err Bool
  | .boolOp values => do
      let allBool ← is_boolean_values vars values
      if allBool then
        pure true
      else
        throw (.syntaxError "Expression ought to be boolean but is not")
  | .nameConstant _ => pure true
  | .name name =>
      match lookupTable vars name with
      | some (.var v) => pure v.is_boolean
      | some (.func _) => throw (.attributeError "is_boolean")
      | none => pure (name == "True" || name == "False")
  | .call f _ _ _ _ =>
      match lookupTable vars f with
      | some (.func fd) =>
          match fd.returns_bool with
          | some b => pure b
          | none => throw (.syntaxError ("Unknown function " ++ f))
      | _ => throw (.syntaxError ("Unknown function " ++ f))
  | .compare _ _ => pure true
  | .unaryOp op _ => pure (op == "Not")
  | _ => pure false

/-- The generator `all(is_boolean_expression(node, variables) for node in
expr.values)`: operands are visited left to right and the conjunction
short-circuits at the first `false`, so operands after it are not evaluated
and cannot raise. -/
def is_boolean_values (vars : VarTable) : List Expr → Except Err Bool
  | [] => pure true
  | e :: es => do
      let b ← is_boolean_expression vars e
      if b then is_boolean_values vars es else pure false

end

/-- Models `getattr(variables[name], 'constant', False)`: a variable descriptor
carries the flag; a `Function` descriptor lacks the attribute, so the default
`False` applies. -/
def TableEntry.constantAttr : TableEntry → Bool
  | .var v => v.constant
  | .func _ => false

/-- Models `getattr(variables[name], 'scalar', False)`, analogously. -/
def TableEntry.scalarAttr : TableEntry → Bool
  | .var v => v.scalar
  | .func _ => false

/-- Models `variables[name].get_value()`.  Only reached for variable entries: for a
`Function` entry the `constant` check fails first and raises. -/
def TableEntry.getValue : TableEntry → ℚ
  | .var v => v.value
  | .func _ => 0

/-- Source function `_get_value_from_expression(expr, variables)` (lines
98-182):
the scalar value of a compile-time-constant expression.

* `Name`: a table entry must be `constant` and `scalar` (else `SyntaxError`)
  and yields `get_value()`; outside the table the literal tokens
  `True`/`False` yield 1.0/0.0 and any other name is a
  `ValueError("Unknown identifier ...")`;
* `NameConstant`: 1.0 or 0.0;
* `Num`: the literal value;
* `BoolOp`, `Compare`: `SyntaxError` (boolean, no numerical value);
* `Call`: `SyntaxError` (no numerical value for a function call);
* `BinOp`: both operands are evaluated recursively, then the operator is
  applied.  NOTE: the source computes `left + right` for both `Add` and
  `Sub` (lines 157-158), so a subtraction is evaluated as an addition; the
  embedding reproduces this faithfully;
* `UnaryOp`: the operand is evaluated first; `Not` raises, `USub` negates,
  any other unary operator is a `SyntaxError`. -/
def _get_value_from_expression (vars : VarTable) : Expr → Except Err ℚ
  | .name name =>
      match lookupTable vars name with
      | some entry =>
          if !entry.constantAttr then
            throw (.syntaxError ("Value " ++ name ++ " is not constant"))
          else if !entry.scalarAttr then
            throw (.syntaxError ("Value " ++ name ++ " is not scalar"))
          else
            pure entry.getValue
      | none =>
          if name == "True" || name == "False" then
            pure (if name == "True" then 1 else 0)
          else
            throw (.valueError ("Unknown identifier " ++ name))
  | .nameConstant value => pure (if value then 1 else 0)
  | .num n => pure n
  | .boolOp _ =>
      throw (.syntaxError "Cannot determine the numerical value for a boolean operation.")
  | .compare _ _ =>
      throw (.syntaxError "Cannot determine the numerical value for a boolean operation.")
  | .call _ _ _ _ _ =>
      throw (.syntaxError "Cannot determine the numerical value for a function call.")
  | .binOp op l r => do
      let left ← _get_value_from_expression vars l
      let right ← _get_value_from_expression vars r
      if op == "Add" || op == "Sub" then
        pure (left + right)
      else if op == "Mult" then
        pure (left * right)
      else if op == "Div" then
        pure (left / right)
      else if op == "Pow" then
        pure (pypow left right)
      else if op == "Mod" then
        pure (pymod left right)
      else
        throw (.syntaxError ("Unsupported operation " ++ op))
  | .unaryOp op operand => do
      let v ← _get_value_from_expression vars operand
      if op == "Not" then
        throw (.syntaxError "Cannot determine the numerical value for a boolean operation.")
      else if op == "USub" then
        pure (-v)
      else
        throw (.syntaxError ("Unknown unary operation " ++ op))

/-- The scan `for left, right in zip(subunits[:-1], subunits[1:])` of the
comparison-chain case: the first adjacent pair of differing dimensions, if
any. -/
def firstMismatch : List Dim → Option (Dim × Dim)
  | a :: b :: rest => if a = b then firstMismatch (b :: rest) else some (a, b)
  | _ => none

/-- Models `hasattr(func, '_arg_units')` followed by reading it: a plain variable
descriptor lacks the attribute. -/
def TableEntry.argUnitsAttr : TableEntry → Option (List ArgUnit)
  | .var _ => none
  | .func f => f.arg_units

/-- Models `hasattr(func, '_return_unit')` followed by reading it, analogously. -/
def TableEntry.returnUnitAttr : TableEntry → Option ReturnUnit
  | .var _ => none
  | .func f => f.return_unit

mutual

/-- Source function `parse_expression_dimensions(expr, variables)` (lines
185-346):
the dimension of an expression, checking dimensional consistency throughout.

* `NameConstant`: dimensionless;
* `Name`: `SyntaxError` when the entry is a `Function` used like a variable;
  otherwise the entry's `dimensions`; outside the table the literal tokens
  `True`/`False` are dimensionless and any other name is a
  `KeyError("Unknown identifier ...")`;
* `Num`: dimensionless;
* `BoolOp`: every operand is checked recursively (results discarded), the
  result is dimensionless;
* `Compare`: the dimensions of `expr.left` and of every comparator are
  computed in sequence; the first adjacent pair of differing dimensions
  raises a `DimensionMismatchError` whose message renders `expr.left` and
  `expr.comparators[0]` (not the differing pair) but reports the differing
  pair's dimensions; otherwise the result is dimensionless;
* `Call`: keyword/starred arguments are rejected; the callee must be in the
  table (`SyntaxError` otherwise) and expose `_arg_units` and `_return_unit`
  (`ValueError` otherwise); the argument count must match; each argument is
  checked against its `_arg_units` entry; the result is dimensionless for a
  boolean `_return_unit`, the fixed dimension for a `Unit`/`int`, and the
  value of the callable rule on all argument dimensions otherwise;
* `BinOp`: for `Add`/`Sub`/`Mod` the operand dimensions must coincide
  (`fail_for_dimension_mismatch`) and the left dimension is returned; `Mult`
  multiplies, `Div` divides the dimensions; `Pow` short-circuits to
  dimensionless when both operands are dimensionless and otherwise raises the
  left dimension to the numeric value of the right operand obtained from
  `_get_value_from_expression`; any other operator is a `SyntaxError`;
* `UnaryOp`: `Not` yields dimensionless, every other unary operator returns
  the operand's dimension unchanged; the operand is always checked first. -/
def parse_expression_dimensions (vars : VarTable) : Expr → Except Err Dim
  | .nameConstant _ => pure DIMENSIONLESS
  | .name name =>
      match lookupTable vars name with
      | some (.func _) =>
          throw (.syntaxError
            (name ++ " was used like a variable/constant, but it is a function."))
      | some (.var v) => pure v.dimensions
      | none =>
          if name == "True" || name == "False" then
            pure DIMENSIONLESS
          else
            throw (.keyError ("Unknown identifier " ++ name))
  | .num _ => pure DIMENSIONLESS
  | .boolOp values => do
      let _ ← parse_dims_list vars values
      pure DIMENSIONLESS
  | .compare left comparators => do
      let leftDim ← parse_expression_dimensions vars left
      let compDims ← parse_dims_list vars comparators
      match firstMismatch (leftDim :: compDims) with
      | some (l, r) =>
          throw (.compareMismatch (render_node left)
            (render_node (comparators.headD (.num 0))) l r)
      | none => pure DIMENSIONLESS
  | .call fname args numKeywords hasStarargs hasKwargs =>
      if numKeywords ≠ 0 then
        throw (.valueError "Keyword arguments not supported.")
      else if hasStarargs then
        throw (.valueError "Variable number of arguments not supported")
      else if hasKwargs then
        throw (.valueError "Keyword arguments not supported")
      else
        match lookupTable vars fname with
        | none => throw (.syntaxError ("Unknown function " ++ fname))
        | some entry =>
            match entry.argUnitsAttr, entry.returnUnitAttr with
            | some argUnits, some returnUnit =>
                if argUnits.length ≠ args.length then
                  throw (.syntaxError
                    ("Function " ++ fname ++ " was called with " ++
                      toString args.length ++ " parameters, needs " ++
                      toString argUnits.length ++ "."))
                else do
                  check_arg_units vars fname 0 args argUnits
                  match returnUnit with
                  | .boolean => pure DIMENSIONLESS
                  | .fixed d => pure d
                  | .computed rule => do
                      let argDims ← parse_dims_list vars args
                      pure (rule argDims)
            | _, _ =>
                throw (.valueError
                  ("Function " ++ fname ++ " does not specify how it deals with units."))
  | .binOp op l r => do
      let left ← parse_expression_dimensions vars l
      let right ← parse_expression_dimensions vars r
      if op == "Add" || op == "Sub" || op == "Mod" then
        let opSymbol := if op == "Add" then "+" else if op == "Sub" then "-" else "%"
        if left = right then
          pure left
        else
          throw (.binOpMismatch (render_node l) opSymbol (render_node r) left right)
      else if op == "Mult" then
        pure (Dim.mul left right)
      else if op == "Div" then
        pure (Dim.div left right)
      else if op == "Pow" then
        if left = DIMENSIONLESS ∧ right = DIMENSIONLESS then
          pure DIMENSIONLESS
        else do
          let n ← _get_value_from_expression vars r
          pure (Dim.pow left n)
      else
        throw (.syntaxError ("Unsupported operation " ++ op))
  | .unaryOp op operand => do
      let u ← parse_expression_dimensions vars operand
      if op == "Not" then pure DIMENSIONLESS else pure u

/-- The loops `for node in ...: parse_expression_dimensions(node, variables)`:
the dimensions of a list of sub-expressions, left to right, propagating the
first error. -/
def parse_dims_list (vars : VarTable) : List Expr → Except Err (List Dim)
  | [] => pure []
  | e :: es => do
      let d ← parse_expression_dimensions vars e
      let ds ← parse_dims_list vars es
      pure (d :: ds)

/-- The loop `for idx, (arg, expected_unit) in enumerate(zip(expr.args,
func._arg_units))` of the `Call` case: each positional argument is checked
against its expected entry (`None` skips, `bool` requires a boolean
expression, a `Unit` requires equal dimensions). -/
def check_arg_units (vars : VarTable) (fname : String) (idx : Nat) :
    List Expr → List ArgUnit → Except Err Unit
  | _, [] => pure ()
  | [], _ :: _ => pure ()
  | arg :: args, expected :: rest => do
      match expected with
      | .any => pure ()
      | .boolean => do
          let b ← is_boolean_expression vars arg
          if !b then
            throw (.argBoolTypeError (idx + 1) fname (render_node arg))
      | .unit d => do
          let argUnit ← parse_expression_dimensions vars arg
          if ¬ (argUnit = d) then
            throw (.argDimMismatch (idx + 1) fname (render_node arg) argUnit d)
      check_arg_units vars fname (idx + 1) args rest

end

/-! Helper lemmas for computing with the `Except Err` monad, and example
dimensions and tables used to instantiate the theorems below. -/

theorem bindE_ok {α β : Type} (a : α) (f : α → Except Err β) :
    (Except.ok a >>= f) = f a := rfl

theorem bindE_error {α β : Type} (e : Err) (f : α → Except Err β) :
    (Except.error e >>= f : Except Err β) = Except.error e := rfl

theorem pureE {α : Type} (a : α) : (pure a : Except Err α) = Except.ok a := rfl

theorem throwE (e : Err) {α : Type} : (throw e : Except Err α) = Except.error e := rfl

/-- The dimension of a length (m). -/
def metre : Dim := ⟨1, 0, 0, 0, 0, 0, 0⟩

/-- The dimension of a time (s). -/
def second : Dim := ⟨0, 0, 1, 0, 0, 0, 0⟩

/-- A non-boolean, non-constant scalar variable of the given dimension. -/
def plainVar (d : Dim) : TableEntry := .var ⟨d, false, false, true, 0⟩

/-- Example table: `x` and `y` are lengths, `z` is a time. -/
def xyzTable : VarTable :=
  [("x", plainVar metre), ("y", plainVar metre), ("z", plainVar second)]

/-- C10: for every unary-operation node whose operator is not logical
negation — including unary plus (`UAdd`) and bitwise inversion (`Invert`),
not only arithmetic negation (`USub`) — `parse_expression_dimensions`
returns the operand's dimension unchanged and never raises an
unsupported-operation error for the unary operator itself; the operand is
still recursively validated (its error, if any, is the result). -/
theorem C10_unary_preserves_dimension (vars : VarTable) (op : String)
    (operand : Expr) (h : op ≠ "Not") :
    parse_expression_dimensions vars (.unaryOp op operand) =
      parse_expression_dimensions vars operand := by
  have hop : (op == "Not") = false := beq_eq_false_iff_ne.mpr h
  simp only [parse_expression_dimensions]
  cases hpe : parse_expression_dimensions vars operand with
  | error e => rw [bindE_error]
  | ok u => rw [bindE_ok, hop]; rfl

/-- C10 witness: bitwise inversion of a length-valued variable has the
length dimension. -/
theorem C10_unary_preserves_dimension_witness :
    parse_expression_dimensions xyzTable (.unaryOp "Invert" (.name "x")) =
      parse_expression_dimensions xyzTable (.name "x") :=
  C10_unary_preserves_dimension xyzTable "Invert" (.name "x") (by decide)

/-- C8: an identifier absent from the variable table that is neither `True`
nor `False` makes `is_boolean_expression` return `false` without raising,
while `parse_expression_dimensions` raises the unknown-identifier `KeyError`
for the same identifier. -/
theorem C8_unknown_identifier_asymmetry (vars : VarTable) (name : String)
    (h : lookupTable vars name = none) (ht : name ≠ "True") (hf : name ≠ "False") :
    is_boolean_expression vars (.name name) = .ok false ∧
      parse_expression_dimensions vars (.name name) =
        .error (.keyError ("Unknown identifier " ++ name)) := by
  have ht' : (name == "True") = false := beq_eq_false_iff_ne.mpr ht
  have hf' : (name == "False") = false := beq_eq_false_iff_ne.mpr hf
  constructor
  · simp only [is_boolean_expression, h, ht', hf', Bool.or_self, pureE]
  · simp only [parse_expression_dimensions, h, ht', hf', Bool.or_self,
      Bool.false_eq_true, if_false, throwE]

/-- C8 witness: the identifier `foo` in the empty variable table. -/
theorem C8_unknown_identifier_asymmetry_witness :
    is_boolean_expression [] (.name "foo") = .ok false ∧
      parse_expression_dimensions [] (.name "foo") =
        .error (.keyError ("Unknown identifier " ++ "foo")) :=
  C8_unknown_identifier_asymmetry [] "foo" rfl (by decide) (by decide)

/-- C9: when the variable table itself contains an entry under the name
`True` or `False`, all three analyses use that table entry instead of the
boolean-literal interpretation: `is_boolean_expression` returns the entry's
`is_boolean` flag, `parse_expression_dimensions` returns the entry's
dimensions (instead of dimensionless), and `_get_value_from_expression`
requires the entry to be constant and scalar and returns its value (instead
of 1.0/0.0) — table lookup always precedes the literal-token fallback. -/
theorem C9_table_shadows_boolean_literals (vars : VarTable) (name : String)
    (v : VarDescriptor) (_hname : name = "True" ∨ name = "False")
    (h : lookupTable vars name = some (.var v)) :
    is_boolean_expression vars (.name name) = .ok v.is_boolean ∧
      parse_expression_dimensions vars (.name name) = .ok v.dimensions ∧
      (v.constant = true → v.scalar = true →
        _get_value_from_expression vars (.name name) = .ok v.value) ∧
      (v.constant = false →
        _get_value_from_expression vars (.name name) =
          .error (.syntaxError ("Value " ++ name ++ " is not constant"))) ∧
      (v.constant = true → v.scalar = false →
        _get_value_from_expression vars (.name name) =
          .error (.syntaxError ("Value " ++ name ++ " is not scalar"))) := by
  refine ⟨?_, ?_, ?_, ?_, ?_⟩
  · simp only [is_boolean_expression, h, pureE]
  · simp only [parse_expression_dimensions, h, pureE]
  · intro hc hs
    simp only [_get_value_from_expression, h, TableEntry.constantAttr,
      TableEntry.scalarAttr, TableEntry.getValue, hc, hs, Bool.not_true,
      Bool.false_eq_true, if_false, pureE]
  · intro hc
    simp only [_get_value_from_expression, h, TableEntry.constantAttr, hc,
      Bool.not_false, if_true, throwE]
  · intro hc hs
    simp only [_get_value_from_expression, h, TableEntry.constantAttr,
      TableEntry.scalarAttr, hc, hs, Bool.not_true, Bool.not_false,
      Bool.false_eq_true, if_false, if_true, throwE]

/-- C9 witness: a table binding `True` to a non-boolean, constant, scalar
length variable of value 5. -/
theorem C9_table_shadows_boolean_literals_witness :
    is_boolean_expression [("True", .var ⟨metre, false, true, true, 5⟩)]
        (.name "True") = .ok false ∧
      parse_expression_dimensions [("True", .var ⟨metre, false, true, true, 5⟩)]
        (.name "True") = .ok metre ∧
      _get_value_from_expression [("True", .var ⟨metre, false, true, true, 5⟩)]
        (.name "True") = .ok 5 := by
  have h := C9_table_shadows_boolean_literals
    [("True", .var ⟨metre, false, true, true, 5⟩)] "True"
    ⟨metre, false, true, true, 5⟩ (Or.inl rfl) rfl
  exact ⟨h.1, h.2.1, h.2.2.1 rfl rfl⟩

/-- C7 (code bug): the constant evaluator computes `left + right` for the
`Sub` operator (source lines 157-158), so the subtraction `2 - 3` evaluates
to `5` instead of `-1`; the corresponding arithmetic operation is not
applied. -/
theorem C7_sub_evaluates_as_add :
    _get_value_from_expression [] (.binOp "Sub" (.num 2) (.num 3)) = .ok 5 ∧
      (2 : ℚ) - 3 ≠ 5 := by
  constructor
  · simp [_get_value_from_expression, bindE_ok, pureE]
    norm_num
  · norm_num

/-- C3 (code bug): in the comparison chain `x < y < z` with `x`, `y` lengths
and `z` a time, the differing adjacent pair is (`y`, `z`), and the raised
`DimensionMismatchError` does carry that pair's dimensions (metre, second) —
but it renders `expr.left` and `expr.comparators[0]`, i.e. the texts `x` and
`y`, instead of the differing sub-expressions `y` and `z` (source lines
251-254). -/
theorem C3_compare_error_renders_wrong_pair :
    parse_expression_dimensions xyzTable
        (.compare (.name "x") [.name "y", .name "z"]) =
      .error (.compareMismatch "x" "y" metre second) ∧
      render_node (Expr.name "y") = "y" ∧ render_node (Expr.name "z") = "z" := by
  refine ⟨?_, rfl, rfl⟩
  simp [parse_expression_dimensions, parse_dims_list, xyzTable, plainVar,
    lookupTable, List.find?, bindE_ok, bindE_error, pureE, throwE,
    firstMismatch, render_node, metre, second, DIMENSIONLESS]

/-- C4: for a binary operation whose operator is addition, subtraction or
modulo, `parse_expression_dimensions` raises a `DimensionMismatchError`
exactly when the two operand dimensions differ (carrying the rendered
operands, the operator symbol and both dimensions), and otherwise returns
the shared operand dimension (the left operand's dimension). -/
theorem C4_add_sub_mod_dimensions (vars : VarTable) (op : String)
    (l r : Expr) (dl dr : Dim)
    (hop : op = "Add" ∨ op = "Sub" ∨ op = "Mod")
    (hl : parse_expression_dimensions vars l = .ok dl)
    (hr : parse_expression_dimensions vars r = .ok dr) :
    (dl = dr → parse_expression_dimensions vars (.binOp op l r) = .ok dl) ∧
    (dl ≠ dr → parse_expression_dimensions vars (.binOp op l r) =
      .error (.binOpMismatch (render_node l)
        (if op = "Add" then "+" else if op = "Sub" then "-" else "%")
        (render_node r) dl dr)) := by
  constructor
  · intro heq
    rcases hop with h | h | h <;> subst h <;>
      simp [parse_expression_dimensions, hl, hr, bindE_ok, heq, pureE]
  · intro hne
    rcases hop with h | h | h <;> subst h <;>
      simp [parse_expression_dimensions, hl, hr, bindE_ok, hne, throwE]

/-- C4 witness: `x + y` for two lengths has the length dimension, and
`x - z` for a length and a time raises the mismatch error carrying both
rendered operands, the `-` symbol and both dimensions. -/
theorem C4_add_sub_mod_dimensions_witness :
    parse_expression_dimensions xyzTable (.binOp "Add" (.name "x") (.name "y")) =
      .ok metre ∧
    parse_expression_dimensions xyzTable (.binOp "Sub" (.name "x") (.name "z")) =
      .error (.binOpMismatch "x" "-" "z" metre second) := by
  constructor
  · exact (C4_add_sub_mod_dimensions xyzTable "Add" (.name "x") (.name "y")
      metre metre (Or.inl rfl) rfl rfl).1 rfl
  · have h := (C4_add_sub_mod_dimensions xyzTable "Sub" (.name "x") (.name "z")
      metre second (Or.inr (Or.inl rfl)) rfl rfl).2 (by decide)
    simpa [render_node] using h

/-- C1: for a power operation, if both operand dimensions are independently
dimensionless the result is dimensionless without consulting the constant
evaluator (no condition on `_get_value_from_expression` is needed);
otherwise the right operand is evaluated by the constant evaluator and the
result is the left dimension raised to that numeric value, the evaluator's
error being propagated when the exponent is not a compile-time numeric
constant. -/
theorem C1_power_dimensions (vars : VarTable) (l r : Expr) (dl dr : Dim)
    (hl : parse_expression_dimensions vars l = .ok dl)
    (hr : parse_expression_dimensions vars r = .ok dr) :
    ((dl = DIMENSIONLESS ∧ dr = DIMENSIONLESS) →
      parse_expression_dimensions vars (.binOp "Pow" l r) = .ok DIMENSIONLESS) ∧
    (¬(dl = DIMENSIONLESS ∧ dr = DIMENSIONLESS) →
      parse_expression_dimensions vars (.binOp "Pow" l r) =
        (_get_value_from_expression vars r).map (Dim.pow dl)) := by
  constructor
  · intro hd
    simp [parse_expression_dimensions, hl, hr, bindE_ok, hd, pureE]
  · intro hd
    simp only [parse_expression_dimensions, hl, hr, bindE_ok]
    rw [if_neg (by decide), if_neg (by decide), if_neg (by decide),
      if_pos (by decide), if_neg hd]
    cases hv : _get_value_from_expression vars r with
    | error e => rw [bindE_error]; rfl
    | ok n => rw [bindE_ok]; rfl

/-- Table with a dimensionless, non-constant variable `q` (so the constant
evaluator fails on `q`, while its dimension is fine). -/
def qTable : VarTable := [("q", plainVar DIMENSIONLESS)]

/-- C1 witness: `2 ** q` with `q` dimensionless but not a compile-time
constant short-circuits to dimensionless (the constant evaluator, which
would fail on `q`, is not consulted); `x ** 2` with `x` a length follows the
constant evaluator of the exponent. -/
theorem C1_power_dimensions_witness :
    (parse_expression_dimensions qTable (.binOp "Pow" (.num 2) (.name "q")) =
        .ok DIMENSIONLESS ∧
      _get_value_from_expression qTable (.name "q") =
        .error (.syntaxError ("Value " ++ "q" ++ " is not constant"))) ∧
    parse_expression_dimensions xyzTable (.binOp "Pow" (.name "x") (.num 2)) =
      (_get_value_from_expression xyzTable (.num 2)).map (Dim.pow metre) := by
  refine ⟨⟨?_, ?_⟩, ?_⟩
  · exact (C1_power_dimensions qTable (.num 2) (.name "q") DIMENSIONLESS
      DIMENSIONLESS rfl rfl).1 ⟨rfl, rfl⟩
  · simp [_get_value_from_expression, qTable, plainVar, lookupTable,
      List.find?, TableEntry.constantAttr, throwE]
  · exact (C1_power_dimensions xyzTable (.name "x") (.num 2) metre
      DIMENSIONLESS rfl rfl).2 (by decide)

/-- If every adjacent pair in a dimension list is equal, the scan finds no
mismatch. -/
theorem firstMismatch_eq_none (ds : List Dim)
    (h : List.Chain' (fun a b => a = b) ds) : firstMismatch ds = none := by
  induction ds with
  | nil => rfl
  | cons a tail ih =>
      cases tail with
      | nil => rfl
      | cons b rest =>
          rw [List.chain'_cons] at h
          simpa [firstMismatch, h.1] using ih h.2

/-- If some adjacent pair differs, the scan returns a differing pair. -/
theorem firstMismatch_eq_some (ds : List Dim)
    (h : ¬ List.Chain' (fun a b => a = b) ds) :
    ∃ a b, firstMismatch ds = some (a, b) ∧ a ≠ b := by
  induction ds with
  | nil => exact absurd List.chain'_nil h
  | cons a tail ih =>
      cases tail with
      | nil => exact absurd (List.chain'_singleton a) h
      | cons b rest =>
          rw [List.chain'_cons] at h
          by_cases hab : a = b
          · have hrest : ¬ List.Chain' (fun a b => a = b) (b :: rest) := by
              intro hc; exact h ⟨hab, hc⟩
            obtain ⟨x, y, hfm, hxy⟩ := ih hrest
            exact ⟨x, y, by simpa [firstMismatch, hab] using hfm, hxy⟩
          · exact ⟨a, b, by simp [firstMismatch, hab], hab⟩

/-- C2: a comparison chain (left operand plus comparators) is dimensionless
when every adjacent pair of operand dimensions is equal — whatever the
shared dimension is — and raises a `DimensionMismatchError` when some
adjacent pair differs. -/
theorem C2_comparison_chain_dimensions (vars : VarTable) (left : Expr)
    (comparators : List Expr) (dl : Dim) (ds : List Dim)
    (hl : parse_expression_dimensions vars left = .ok dl)
    (hc : parse_dims_list vars comparators = .ok ds) :
    (List.Chain' (fun a b => a = b) (dl :: ds) →
      parse_expression_dimensions vars (.compare left comparators) =
        .ok DIMENSIONLESS) ∧
    (¬ List.Chain' (fun a b => a = b) (dl :: ds) →
      ∃ ra rb a b, a ≠ b ∧
        parse_expression_dimensions vars (.compare left comparators) =
          .error (.compareMismatch ra rb a b)) := by
  constructor
  · intro h
    simp [parse_expression_dimensions, hl, hc, bindE_ok,
      firstMismatch_eq_none _ h, pureE]
  · intro h
    obtain ⟨a, b, hfm, hab⟩ := firstMismatch_eq_some _ h
    refine ⟨render_node left, render_node (comparators.headD (.num 0)), a, b, hab, ?_⟩
    simp [parse_expression_dimensions, hl, hc, bindE_ok, hfm, throwE]

/-- C2 witness: `x < y` for two lengths is dimensionless; `x < y < z` with a
time at the end raises a `DimensionMismatchError`. -/
theorem C2_comparison_chain_dimensions_witness :
    parse_expression_dimensions xyzTable (.compare (.name "x") [.name "y"]) =
      .ok DIMENSIONLESS ∧
    (∃ ra rb a b, a ≠ b ∧
      parse_expression_dimensions xyzTable
          (.compare (.name "x") [.name "y", .name "z"]) =
        .error (.compareMismatch ra rb a b)) := by
  constructor
  · exact (C2_comparison_chain_dimensions xyzTable (.name "x") [.name "y"]
      metre [metre] rfl rfl).1 (by simp)
  · exact (C2_comparison_chain_dimensions xyzTable (.name "x")
      [.name "y", .name "z"] metre [metre, second] rfl rfl).2
      (by simp [List.chain'_cons, metre, second, DIMENSIONLESS])

/-- If every operand of a boolean combination is boolean, the conjunction
scan returns `true`. -/
theorem is_boolean_values_all_true (vars : VarTable) (values : List Expr)
    (h : ∀ e ∈ values, is_boolean_expression vars e = .ok true) :
    is_boolean_values vars values = .ok true := by
  induction values with
  | nil => rfl
  | cons e es ih =>
      simp only [is_boolean_values, h e (List.mem_cons_self e es), bindE_ok,
        if_true]
      exact ih (fun x hx => h x (List.mem_cons_of_mem e hx))

/-- If every operand evaluates without raising and some operand is not
boolean, the conjunction scan returns `false`. -/
theorem is_boolean_values_exists_false (vars : VarTable) (values : List Expr)
    (h : ∀ e ∈ values, ∃ b, is_boolean_expression vars e = .ok b)
    (hex : ∃ e ∈ values, is_boolean_expression vars e = .ok false) :
    is_boolean_values vars values = .ok false := by
  induction values with
  | nil => obtain ⟨e, he, _⟩ := hex; exact absurd he (List.not_mem_nil e)
  | cons e es ih =>
      obtain ⟨b, hb⟩ := h e (List.mem_cons_self e es)
      cases b with
      | false => simp [is_boolean_values, hb, bindE_ok, pureE]
      | true =>
          simp only [is_boolean_values, hb, bindE_ok, if_true]
          refine ih (fun x hx => h x (List.mem_cons_of_mem e hx)) ?_
          obtain ⟨x, hx, hxf⟩ := hex
          rcases List.mem_cons.mp hx with rfl | hx'
          · rw [hb] at hxf; exact absurd (Except.ok.inj hxf) (by decide)
          · exact ⟨x, hx', hxf⟩

/-- C5: a boolean combination (and/or chain) is boolean when every operand
is boolean, and when some operand evaluates to a non-boolean (while all
operands evaluate without raising), `is_boolean_expression` raises a
`SyntaxError` rather than returning `false`. -/
theorem C5_boolop_requires_boolean_operands (vars : VarTable)
    (values : List Expr)
    (h : ∀ e ∈ values, ∃ b, is_boolean_expression vars e = .ok b) :
    ((∀ e ∈ values, is_boolean_expression vars e = .ok true) →
      is_boolean_expression vars (.boolOp values) = .ok true) ∧
    ((∃ e ∈ values, is_boolean_expression vars e = .ok false) →
      is_boolean_expression vars (.boolOp values) =
        .error (.syntaxError "Expression ought to be boolean but is not")) := by
  constructor
  · intro hall
    simp [is_boolean_expression, is_boolean_values_all_true vars values hall,
      bindE_ok, pureE]
  · intro hex
    simp [is_boolean_expression,
      is_boolean_values_exists_false vars values h hex, bindE_ok, throwE]

/-- Table for the boolean-combination examples: `x`, `y` lengths, `b` a
boolean variable, `n` a numeric (non-boolean) dimensionless variable. -/
def boolTable : VarTable :=
  [("x", plainVar metre), ("y", plainVar metre),
   ("b", .var ⟨DIMENSIONLESS, true, false, true, 0⟩),
   ("n", plainVar DIMENSIONLESS)]

/-- C5 witness: `x < y and b` is boolean; `x < y and n` with numeric `n`
raises the `SyntaxError`. -/
theorem C5_boolop_requires_boolean_operands_witness :
    is_boolean_expression boolTable
        (.boolOp [.compare (.name "x") [.name "y"], .name "b"]) = .ok true ∧
      is_boolean_expression boolTable
        (.boolOp [.compare (.name "x") [.name "y"], .name "n"]) =
          .error (.syntaxError "Expression ought to be boolean but is not") := by
  constructor
  · refine (C5_boolop_requires_boolean_operands boolTable _ ?_).1 ?_ <;>
      · intro e he
        rcases List.mem_cons.mp he with rfl | he'
        · first
          | rfl
          | exact ⟨_, rfl⟩
        · rcases List.mem_cons.mp he' with rfl | he''
          · first
            | rfl
            | exact ⟨_, rfl⟩
          · exact absurd he'' (List.not_mem_nil e)
  · refine (C5_boolop_requires_boolean_operands boolTable _ ?_).2
      ⟨.name "n", by simp, rfl⟩
    intro e he
    rcases List.mem_cons.mp he with rfl | he'
    · exact ⟨_, rfl⟩
    · rcases List.mem_cons.mp he' with rfl | he''
      · exact ⟨_, rfl⟩
      · exact absurd he'' (List.not_mem_nil e)

/-- Helper: an exhausted `_arg_units` list checks nothing (`zip` truncates). -/
theorem cau_nilU (vars : VarTable) (fname : String) (idx : Nat)
    (args : List Expr) : check_arg_units vars fname idx args [] = .ok () := by
  cases args <;> simp [check_arg_units, pureE]

/-- Helper: a `None` entry skips its argument entirely. -/
theorem cau_any (vars : VarTable) (fname : String) (idx : Nat) (a : Expr)
    (as : List Expr) (us : List ArgUnit) :
    check_arg_units vars fname idx (a :: as) (.any :: us) =
      check_arg_units vars fname (idx + 1) as us := by
  simp [check_arg_units, bindE_ok, pureE]

/-- Helper: a `bool` entry propagates an error of the boolean checker. -/
theorem cau_boolean_err (vars : VarTable) (fname : String) (idx : Nat)
    (a : Expr) (as : List Expr) (us : List ArgUnit) (e : Err)
    (hb : is_boolean_expression vars a = .error e) :
    check_arg_units vars fname idx (a :: as) (.boolean :: us) =
      .error e := by
  simp [check_arg_units, hb, bindE_error]

/-- Helper: a `bool` entry raises the `TypeError` on a non-boolean argument. -/
theorem cau_boolean_false (vars : VarTable) (fname : String) (idx : Nat)
    (a : Expr) (as : List Expr) (us : List ArgUnit)
    (hb : is_boolean_expression vars a = .ok false) :
    check_arg_units vars fname idx (a :: as) (.boolean :: us) =
      .error (.argBoolTypeError (idx + 1) fname (render_node a)) := by
  simp [check_arg_units, hb, bindE_ok, bindE_error, throwE]

/-- Helper: a `bool` entry passes a boolean argument through. -/
theorem cau_boolean_true (vars : VarTable) (fname : String) (idx : Nat)
    (a : Expr) (as : List Expr) (us : List ArgUnit)
    (hb : is_boolean_expression vars a = .ok true) :
    check_arg_units vars fname idx (a :: as) (.boolean :: us) =
      check_arg_units vars fname (idx + 1) as us := by
  simp [check_arg_units, hb, bindE_ok, pureE]

/-- Helper: a `Unit` entry propagates an error of the dimension checker. -/
theorem cau_unit_err (vars : VarTable) (fname : String) (idx : Nat)
    (a : Expr) (as : List Expr) (us : List ArgUnit) (d : Dim) (e : Err)
    (hp : parse_expression_dimensions vars a = .error e) :
    check_arg_units vars fname idx (a :: as) (.unit d :: us) = .error e := by
  simp [check_arg_units, hp, bindE_error]

/-- Helper: a `Unit` entry passes an argument of the expected dimension. -/
theorem cau_unit_ok_eq (vars : VarTable) (fname : String) (idx : Nat)
    (a : Expr) (as : List Expr) (us : List ArgUnit) (d : Dim)
    (hp : parse_expression_dimensions vars a = .ok d) :
    check_arg_units vars fname idx (a :: as) (.unit d :: us) =
      check_arg_units vars fname (idx + 1) as us := by
  simp [check_arg_units, hp, bindE_ok, pureE]

/-- Helper: a `Unit` entry raises on an argument of a different dimension. -/
theorem cau_unit_ok_ne (vars : VarTable) (fname : String) (idx : Nat)
    (a : Expr) (as : List Expr) (us : List ArgUnit) (d d' : Dim)
    (hp : parse_expression_dimensions vars a = .ok d') (hne : d' ≠ d) :
    check_arg_units vars fname idx (a :: as) (.unit d :: us) =
      .error (.argDimMismatch (idx + 1) fname (render_node a) d' d) := by
  simp [check_arg_units, hp, hne, bindE_ok, bindE_error, throwE]

/-- Helper: when a prefix of the arguments passes its checks, checking the
whole list continues with the remaining arguments at the shifted index. -/
theorem cau_append (vars : VarTable) (fname : String) (pre : List Expr) :
    ∀ (preU : List ArgUnit) (idx : Nat) (args : List Expr) (us : List ArgUnit),
      pre.length = preU.length →
      check_arg_units vars fname idx pre preU = .ok () →
      check_arg_units vars fname idx (pre ++ args) (preU ++ us) =
        check_arg_units vars fname (idx + pre.length) args us := by
  induction pre with
  | nil =>
      intro preU idx args us hlen hok
      cases preU with
      | nil => simp
      | cons u preU' => simp at hlen
  | cons a pre' ih =>
      intro preU idx args us hlen hok
      cases preU with
      | nil => simp at hlen
      | cons u preU' =>
          have hlen' : pre'.length = preU'.length := by simpa using hlen
          have hidx : idx + (a :: pre').length = (idx + 1) + pre'.length := by
            simp [List.length_cons]; omega
          cases u with
          | any =>
              rw [List.cons_append, List.cons_append, cau_any]
              rw [cau_any] at hok
              rw [ih preU' (idx + 1) args us hlen' hok, hidx]
          | boolean =>
              cases hb : is_boolean_expression vars a with
              | error e =>
                  rw [cau_boolean_err vars fname idx a pre' preU' e hb] at hok
                  simp at hok
              | ok b =>
                  cases b with
                  | false =>
                      rw [cau_boolean_false vars fname idx a pre' preU' hb] at hok
                      simp at hok
                  | true =>
                      rw [List.cons_append, List.cons_append,
                        cau_boolean_true vars fname idx a (pre' ++ args)
                          (preU' ++ us) hb]
                      rw [cau_boolean_true vars fname idx a pre' preU' hb] at hok
                      rw [ih preU' (idx + 1) args us hlen' hok, hidx]
          | unit d =>
              cases hp : parse_expression_dimensions vars a with
              | error e =>
                  rw [cau_unit_err vars fname idx a pre' preU' d e hp] at hok
                  simp at hok
              | ok d' =>
                  by_cases hd : d' = d
                  · subst hd
                    rw [List.cons_append, List.cons_append,
                      cau_unit_ok_eq vars fname idx a (pre' ++ args)
                        (preU' ++ us) d' hp]
                    rw [cau_unit_ok_eq vars fname idx a pre' preU' d' hp] at hok
                    rw [ih preU' (idx + 1) args us hlen' hok, hidx]
                  · rw [cau_unit_ok_ne vars fname idx a pre' preU' d d' hp hd] at hok
                    simp at hok

/-- C6: for a function-call node whose descriptor's expected-argument entry
at 0-based position `i` (here `i = pre.length`) is the boolean sentinel,
when all earlier arguments pass their checks and the `i`-th argument does
not satisfy the boolean-type checker, `parse_expression_dimensions` raises
the `TypeError` naming the 1-based argument position `i + 1`, the function
name, and the rendered argument. -/
theorem C6_boolean_sentinel_argument (vars : VarTable) (fname : String)
    (fd : FuncDescriptor) (pre post : List Expr) (arg : Expr)
    (preU postU : List ArgUnit) (ru : ReturnUnit)
    (hlook : lookupTable vars fname = some (.func fd))
    (hau : fd.arg_units = some (preU ++ .boolean :: postU))
    (hru : fd.return_unit = some ru)
    (hlen1 : pre.length = preU.length)
    (hlen2 : post.length = postU.length)
    (hpre : check_arg_units vars fname 0 pre preU = .ok ())
    (hb : is_boolean_expression vars arg = .ok false) :
    parse_expression_dimensions vars
        (.call fname (pre ++ arg :: post) 0 false false) =
      .error (.argBoolTypeError (pre.length + 1) fname (render_node arg)) := by
  have hcheck : check_arg_units vars fname 0 (pre ++ arg :: post)
      (preU ++ .boolean :: postU) =
      .error (.argBoolTypeError (pre.length + 1) fname (render_node arg)) := by
    rw [cau_append vars fname pre preU 0 (arg :: post) (.boolean :: postU)
      hlen1 hpre]
    rw [cau_boolean_false vars fname (0 + pre.length) arg post postU hb]
    rw [Nat.zero_add]
  have hlen : (preU ++ ArgUnit.boolean :: postU).length =
      (pre ++ arg :: post).length := by
    simp [hlen1, hlen2]
  simp only [parse_expression_dimensions]
  rw [if_neg (by decide), if_neg (by decide), if_neg (by decide)]
  simp only [hlook, TableEntry.argUnitsAttr, TableEntry.returnUnitAttr, hau, hru]
  rw [if_neg (by simp [hlen])]
  rw [hcheck, bindE_error]

/-- Table with the `clip` function descriptor of the spec's scenario
(`arg_units = [bool, None, None]`, a fixed dimensionless return unit) and a
numeric dimensionless variable `n`. -/
def clipTable : VarTable :=
  [("clip", .func ⟨none, some [.boolean, .any, .any], some (.fixed DIMENSIONLESS)⟩),
   ("n", plainVar DIMENSIONLESS)]

/-- C6 witness: `clip(n, 2, 3)` with `arg_units = [bool, None, None]` and a
numeric first argument `n` raises the `TypeError` naming argument position
1, the function name `clip` and the rendered argument `n`. -/
theorem C6_boolean_sentinel_argument_witness :
    parse_expression_dimensions clipTable
        (.call "clip" [.name "n", .num 2, .num 3] 0 false false) =
      .error (.argBoolTypeError 1 "clip" "n") := by
  have h := C6_boolean_sentinel_argument clipTable "clip"
    ⟨none, some [.boolean, .any, .any], some (.fixed DIMENSIONLESS)⟩
    [] [.num 2, .num 3] (.name "n") [] [.any, .any] (.fixed DIMENSIONLESS)
    rfl rfl rfl rfl rfl rfl rfl
  simpa [render_node] using h
